import Mathlib

set_option maxHeartbeats 1000000

/-
Verification development for the NHTSA complaints training pipeline
(src/lambda_train.py). The Python module is shallowly embedded: every
upstream HTTP+JSON endpoint becomes a component of an `Upstream` record
(a response either carries a `results` list, modelled as `some results`,
or lacks the `results` key, modelled as `none`); pandas DataFrames built
from lists of dicts become Lean lists of records; raising an exception
becomes `Except.error`. pandas subtlety kept by the embedding:
`pd.DataFrame([])` has no columns at all, so
`df.groupby(["make", "model"])` raises `KeyError` when the record list
the frame was built from is empty. Row order of the pandas outer merge
is not modelled bit-for-bit (the spec leaves FeatureRow order
unspecified and every property below is order-insensitive): the
embedding lists left-side keys first, then right-only keys.
-/

namespace NhtsaLambdaTrain

/-- An element of the `results` list of the makes endpoint: an object with
a `make` field, as read by `make["make"]` in `fetch_makes`. -/
structure SrcMake where
  make : String
  deriving DecidableEq, Repr

/-- An element of the `results` list of the models endpoint, as read by
`model["modelYear"]`, `model["make"]`, `model["model"]` in `fetch_models`. -/
structure SrcModel where
  modelYear : Int
  make : String
  model : String
  deriving DecidableEq, Repr

/-- An element of the `results` list of the complaints endpoint. Fields
read with `complaint[...]` in `fetch_complaints` are required; `summary`
is read with `complaint.get("summary")` and so may be absent. -/
structure SrcComplaint where
  odiNumber : Int
  manufacturer : String
  crash : Bool
  fire : Bool
  numberOfInjuries : Int
  numberOfDeaths : Int
  summary : Option String
  deriving DecidableEq, Repr

/-- An element of the `results` list of the recalls endpoint, with the
source JSON key casing. Fields read with `recall[...]` in `fetch_recalls`
are required; the five read with `recall.get(...)` may be absent. -/
structure SrcRecall where
  NHTSACampaignNumber : String
  Manufacturer : String
  Component : String
  Summary : String
  Consequence : Option String
  Remedy : Option String
  Notes : Option String
  ReportReceivedDate : Option String
  AffectedVehicles : Option String
  deriving DecidableEq, Repr

/-- One row of the `models` list built by `fetch_models`. -/
structure ModelRecord where
  modelYear : Int
  make : String
  model : String
  deriving DecidableEq, Repr

/-- One row of the `complaints` list built by `fetch_complaints`. -/
structure ComplaintRecord where
  make : String
  model : String
  modelYear : Int
  odiNumber : Int
  manufacturer : String
  crash : Bool
  fire : Bool
  numberOfInjuries : Int
  numberOfDeaths : Int
  summary : Option String
  deriving DecidableEq, Repr

/-- One row of the `recalls` list built by `fetch_recalls`. -/
structure RecallRecord where
  make : String
  model : String
  modelYear : Int
  NHTSACampaignNumber : String
  manufacturer : String
  component : String
  summary : String
  consequence : Option String
  remedy : Option String
  notes : Option String
  reportDate : Option String
  affectedVehicles : Option String
  deriving DecidableEq, Repr

/-- One row of the merged feature table (columns of `merged_data`). -/
structure FeatureRow where
  make : String
  model : String
  complaints_count : Nat
  recalls_count : Nat
  deriving DecidableEq, Repr

/-- The upstream NHTSA API, one component per endpoint family. A value
`some rs` models a JSON response containing a `results` list `rs`; `none`
models a response lacking the `results` key. Arguments mirror the query
parameters of each URL in the source. -/
structure Upstream where
  makesResp : Int → Char → Option (List SrcMake)
  modelsResp : Int → String → Char → Option (List SrcModel)
  complaintsResp : String → String → Int → Option (List SrcComplaint)
  recallsResp : String → String → Int → Option (List SrcRecall)

/-- `fetch_makes(model_year, issue_type)`: raises
`ValueError("Failed to fetch makes data.")` when `results` is absent,
otherwise returns `[make["make"] for make in makes_data["results"]]`. -/
def fetch_makes (up : Upstream) (model_year : Int) (issue_type : Char) :
    Except String (List String) :=
  match up.makesResp model_year issue_type with
  | none => Except.error "Failed to fetch makes data."
  | some results => Except.ok (results.map SrcMake.make)

/-- `fetch_models(model_year, makes_list, issue_type)`: a sequential loop
over `makes_list`; a make whose response has a `results` key extends the
accumulator with one dict per result, a make without `results` is
skipped. -/
def fetch_models (up : Upstream) (model_year : Int) (makes_list : List String)
    (issue_type : Char) : List ModelRecord :=
  makes_list.foldl
    (fun models mk =>
      match up.modelsResp model_year mk issue_type with
      | some results =>
          models ++ results.map (fun m =>
            { modelYear := m.modelYear, make := m.make, model := m.model })
      | none => models)
    []

/-- The dict literal inside the `fetch_complaints` comprehension:
`make`, `model`, `modelYear` are copied from the loop row, the rest from
the upstream complaint object, with `summary` via `.get`. -/
def mkComplaintRecord (row : ModelRecord) (c : SrcComplaint) : ComplaintRecord :=
  { make := row.make
    model := row.model
    modelYear := row.modelYear
    odiNumber := c.odiNumber
    manufacturer := c.manufacturer
    crash := c.crash
    fire := c.fire
    numberOfInjuries := c.numberOfInjuries
    numberOfDeaths := c.numberOfDeaths
    summary := c.summary }

/-- `fetch_complaints(models_df)`: a sequential loop over the rows of the
models frame; rows whose response lacks `results` contribute nothing. -/
def fetch_complaints (up : Upstream) (models_df : List ModelRecord) :
    List ComplaintRecord :=
  models_df.foldl
    (fun complaints row =>
      match up.complaintsResp row.make row.model row.modelYear with
      | some results => complaints ++ results.map (mkComplaintRecord row)
      | none => complaints)
    []

/-- The dict literal inside the `fetch_recalls` comprehension: `make`,
`model`, `modelYear` are copied from the loop row, the rest from the
upstream recall object, five fields via `.get`. -/
def mkRecallRecord (row : ModelRecord) (r : SrcRecall) : RecallRecord :=
  { make := row.make
    model := row.model
    modelYear := row.modelYear
    NHTSACampaignNumber := r.NHTSACampaignNumber
    manufacturer := r.Manufacturer
    component := r.Component
    summary := r.Summary
    consequence := r.Consequence
    remedy := r.Remedy
    notes := r.Notes
    reportDate := r.ReportReceivedDate
    affectedVehicles := r.AffectedVehicles }

/-- `fetch_recalls(models_df)`: a sequential loop over the rows of the
models frame; rows whose response lacks `results` contribute nothing. -/
def fetch_recalls (up : Upstream) (models_df : List ModelRecord) :
    List RecallRecord :=
  models_df.foldl
    (fun recalls row =>
      match up.recallsResp row.make row.model row.modelYear with
      | some results => recalls ++ results.map (mkRecallRecord row)
      | none => recalls)
    []

/-- The grouped count table: one `(key, size)` pair per distinct
`(make, model)` key of the input rows. (pandas sorts group keys; key
order is irrelevant to every property below, so the embedding keeps the
dedup order.) -/
def groupTable (rows : List (String × String)) :
    List ((String × String) × Nat) :=
  rows.dedup.map (fun k => (k, rows.count k))

/-- `df.groupby(["make", "model"]).size().reset_index(name=...)` applied
to `pd.DataFrame(rows)`. When `rows` is the empty list the frame has no
columns at all and pandas raises `KeyError("make")`. -/
def df_groupby_size (rows : List (String × String)) :
    Except String (List ((String × String) × Nat)) :=
  if rows.isEmpty then Except.error "KeyError: make"
  else Except.ok (groupTable rows)

/-- `pd.merge(left, right, on=["make", "model"], how="outer").fillna(0)`
for the two grouped count tables (whose keys are duplicate-free, so the
join matches by lookup): every left key keeps its count and takes the
right count or 0, and every right-only key takes complaints count 0. -/
def merge_outer_fill0 (left right : List ((String × String) × Nat)) :
    List FeatureRow :=
  (left.map (fun kc =>
    { make := kc.1.1, model := kc.1.2, complaints_count := kc.2,
      recalls_count := ((right.lookup kc.1).getD 0) : FeatureRow }))
  ++ ((right.filter (fun kc => (left.lookup kc.1).isNone)).map (fun kc =>
    { make := kc.1.1, model := kc.1.2, complaints_count := 0,
      recalls_count := kc.2 : FeatureRow }))

/-- The `(make, model)` key of each complaint row. -/
def complaintPairs (cs : List ComplaintRecord) : List (String × String) :=
  cs.map (fun c => (c.make, c.model))

/-- The `(make, model)` key of each recall row. -/
def recallPairs (rs : List RecallRecord) : List (String × String) :=
  rs.map (fun r => (r.make, r.model))

/-- The three transformation lines of `lambda_handler`: group each side
by `(make, model)` with `.size()`, then outer-merge and `.fillna(0)`. -/
def aggregate (complaints_df : List ComplaintRecord)
    (recalls_df : List RecallRecord) : Except String (List FeatureRow) := do
  let complaints_agg ← df_groupby_size (complaintPairs complaints_df)
  let recalls_agg ← df_groupby_size (recallPairs recalls_df)
  Except.ok (merge_outer_fill0 complaints_agg recalls_agg)

/-- The invocation event: each recognized option may be absent
(`event.get(key, default)` in the source). -/
structure Event where
  bucket_name : Option String
  model_year : Option Int
  train_runtime : Option Int
  train_instance : Option String
  deriving DecidableEq, Repr

/-- The value returned by `lambda_handler` on success. -/
structure RunResult where
  statusCode : Nat
  body : String
  deriving DecidableEq, Repr

/-- An observable call to an external collaborator:
`s3.put_object(Bucket=..., Key=..., Body=<csv of rows>)` or
`sagemaker.create_training_job(...)` with the fields the event
controls. -/
inductive Action where
  | putObject (bucket : String) (key : String) (rows : List FeatureRow)
  | createTrainingJob (name : String) (inputS3Uri : String)
      (outputS3Path : String) (instanceType : String) (maxRuntime : Int)
  deriving DecidableEq, Repr

/-- Ambient run context: the upstream API, the `datetime.now()` stamp
used in object key and job name, and the `TrainingJobArn` the sagemaker
collaborator returns. -/
structure Env where
  up : Upstream
  now : String
  trainingJobArn : String

/-- `lambda_handler(event, context)`: defaults the four options, runs
taxonomy → models → complaints → recalls → aggregate with
`issue_type="c"` for taxonomy and models, then (on success) performs the
two collaborator calls and returns
`{"statusCode": 200, "body": json.dumps(f"Triggered SageMaker job: {arn}")}`.
An uncaught exception (the `Except.error` branch) reaches the caller
before any collaborator call: the action list exists only on `ok`. -/
def lambda_handler (env : Env) (event : Event) :
    Except String (List Action × RunResult) := do
  let bucket_name := event.bucket_name.getD "nhtsa-analytics"
  let model_year := event.model_year.getD 2020
  let train_runtime := event.train_runtime.getD 600
  let train_instance := event.train_instance.getD "ml.m5.large"
  let output_s3_path := "s3://" ++ bucket_name ++ "/models/"
  let makes_list ← fetch_makes env.up model_year 'c'
  let models_df := fetch_models env.up model_year makes_list 'c'
  let complaints_df := fetch_complaints env.up models_df
  let recalls_df := fetch_recalls env.up models_df
  let merged_data ← aggregate complaints_df recalls_df
  let data_key := "data/train_data_" ++ env.now ++ ".csv"
  let training_job_name := "LogisticRegressionJob-" ++ env.now
  Except.ok
    ([Action.putObject bucket_name data_key merged_data,
      Action.createTrainingJob training_job_name
        ("s3://" ++ bucket_name ++ "/" ++ data_key) output_s3_path
        train_instance train_runtime],
     { statusCode := 200,
       body := "\"Triggered SageMaker job: " ++ env.trainingJobArn ++ "\"" })

/-- The records one make contributes inside the `fetch_models` loop:
its `results` mapped to dicts, or nothing when `results` is absent. -/
def modelsContribution (up : Upstream) (model_year : Int) (issue_type : Char)
    (mk : String) : List ModelRecord :=
  match up.modelsResp model_year mk issue_type with
  | some results => results.map (fun m =>
      { modelYear := m.modelYear, make := m.make, model := m.model })
  | none => []

/-- The records one models-frame row contributes inside the
`fetch_complaints` loop. -/
def complaintsContribution (up : Upstream) (row : ModelRecord) :
    List ComplaintRecord :=
  match up.complaintsResp row.make row.model row.modelYear with
  | some results => results.map (mkComplaintRecord row)
  | none => []

/-- The records one models-frame row contributes inside the
`fetch_recalls` loop. -/
def recallsContribution (up : Upstream) (row : ModelRecord) :
    List RecallRecord :=
  match up.recallsResp row.make row.model row.modelYear with
  | some results => results.map (mkRecallRecord row)
  | none => []

/-- A concrete models-frame row used by the concrete runs below. -/
def rowAcmeX : ModelRecord := { modelYear := 2020, make := "Acme", model := "X" }

/-- A concrete makes-endpoint result object. -/
def srcMakeAcme : SrcMake := { make := "Acme" }

/-- A concrete models-endpoint result object. -/
def srcModelAcmeX : SrcModel := { modelYear := 2020, make := "Acme", model := "X" }

/-- A concrete complaints-endpoint result object (odiNumber 1, no
summary). -/
def srcComplaintOne : SrcComplaint :=
  { odiNumber := 1, manufacturer := "Acme Corp", crash := false, fire := false,
    numberOfInjuries := 0, numberOfDeaths := 0, summary := none }

/-- A concrete recalls-endpoint result object (campaign C1, all
optional fields absent). -/
def srcRecallOne : SrcRecall :=
  { NHTSACampaignNumber := "C1", Manufacturer := "Acme Corp",
    Component := "BRAKES", Summary := "stops badly", Consequence := none,
    Remedy := none, Notes := none, ReportReceivedDate := none,
    AffectedVehicles := none }

/-- The complaint row the pipeline builds from `rowAcmeX` and
`srcComplaintOne` (the first row of the §8 example of the spec). -/
def acmeComplaintX1 : ComplaintRecord := mkComplaintRecord rowAcmeX srcComplaintOne

/-- The second complaint row of the §8 example: same vehicle, odiNumber 2. -/
def acmeComplaintX2 : ComplaintRecord := { acmeComplaintX1 with odiNumber := 2 }

/-- The recall row of the §8 example: make Acme, model Y, campaign C1. -/
def acmeRecallY : RecallRecord :=
  mkRecallRecord { modelYear := 2020, make := "Acme", model := "Y" } srcRecallOne

/-- The recall row built from `rowAcmeX` and `srcRecallOne`. -/
def acmeRecallX : RecallRecord := mkRecallRecord rowAcmeX srcRecallOne

/-- A happy-path upstream: every endpoint answers with one result. -/
def upHappy : Upstream :=
  { makesResp := fun _ _ => some [srcMakeAcme],
    modelsResp := fun _ _ _ => some [srcModelAcmeX],
    complaintsResp := fun _ _ _ => some [srcComplaintOne],
    recallsResp := fun _ _ _ => some [srcRecallOne] }

/-- An upstream whose every response lacks the `results` key. -/
def upNoMakes : Upstream :=
  { makesResp := fun _ _ => none,
    modelsResp := fun _ _ _ => none,
    complaintsResp := fun _ _ _ => none,
    recallsResp := fun _ _ _ => none }

/-- An upstream whose makes response names the same make twice. -/
def upDupMakes : Upstream :=
  { upNoMakes with makesResp := fun _ _ => some [srcMakeAcme, srcMakeAcme] }

/-- An upstream where the models response for make Bork lacks `results`
while the one for Acme has it. -/
def upPartial : Upstream :=
  { makesResp := fun _ _ => some [srcMakeAcme, { make := "Bork" }],
    modelsResp := fun _ mk _ => if mk = "Acme" then some [srcModelAcmeX] else none,
    complaintsResp := fun _ _ _ => none,
    recallsResp := fun _ _ _ => none }

/-- One of a pair of upstreams that agree on everything the driver can
reach with issue type c and on the complaints and recalls endpoints. -/
def upIssueA : Upstream :=
  { makesResp := fun _ it => if it = 'c' then some [srcMakeAcme] else none,
    modelsResp := fun _ _ it => if it = 'c' then some [srcModelAcmeX] else none,
    complaintsResp := fun _ _ _ => some [srcComplaintOne],
    recallsResp := fun _ _ _ => some [srcRecallOne] }

/-- The other upstream of the pair: it differs from `upIssueA` only in
the makes and models data filed under issue types other than c. -/
def upIssueB : Upstream :=
  { makesResp := fun _ it =>
      if it = 'c' then some [srcMakeAcme] else some [{ make := "Zeta" }],
    modelsResp := fun _ _ it =>
      if it = 'c' then some [srcModelAcmeX]
      else some [{ modelYear := 1999, make := "Zeta", model := "Q" }],
    complaintsResp := fun _ _ _ => some [srcComplaintOne],
    recallsResp := fun _ _ _ => some [srcRecallOne] }

/-- The event with every recognized option absent. -/
def eventNone : Event :=
  { bucket_name := none, model_year := none, train_runtime := none,
    train_instance := none }

/-- A happy-path run context. -/
def envHappy : Env :=
  { up := upHappy, now := "20200101000000",
    trainingJobArn := "arn:aws:sagemaker:us-west-2:0:training-job/LR" }

/-- A run context whose taxonomy endpoint lacks `results`. -/
def envNoMakes : Env :=
  { up := upNoMakes, now := "20200101000000", trainingJobArn := "arn" }

/-- The action list `lambda_handler envHappy eventNone` performs. -/
def actsHappy : List Action :=
  [Action.putObject "nhtsa-analytics" "data/train_data_20200101000000.csv"
    [{ make := "Acme", model := "X", complaints_count := 1, recalls_count := 1 }],
   Action.createTrainingJob "LogisticRegressionJob-20200101000000"
     "s3://nhtsa-analytics/data/train_data_20200101000000.csv"
     "s3://nhtsa-analytics/models/" "ml.m5.large" 600]

/-- The run result `lambda_handler envHappy eventNone` returns. -/
def resHappy : RunResult :=
  { statusCode := 200,
    body := "\"Triggered SageMaker job: arn:aws:sagemaker:us-west-2:0:training-job/LR\"" }

end NhtsaLambdaTrain

namespace NhtsaLambdaTrain

theorem bindE_error {α β : Type} (e : String) (f : α → Except String β) :
    ((Except.error e : Except String α) >>= f) = Except.error e := rfl

theorem bindE_ok {α β : Type} (a : α) (f : α → Except String β) :
    ((Except.ok a : Except String α) >>= f) = f a := rfl

theorem bind_eq_ok {α β : Type} {x : Except String α} {f : α → Except String β}
    {b : β} (h : (x >>= f) = Except.ok b) :
    ∃ a, x = Except.ok a ∧ f a = Except.ok b := by
  cases x with
  | error e => rw [bindE_error] at h; exact Except.noConfusion h
  | ok a => exact ⟨a, rfl, h⟩

theorem foldl_models_eq (up : Upstream) (model_year : Int) (issue_type : Char) :
    ∀ (makes_list : List String) (acc : List ModelRecord),
      makes_list.foldl (fun models mk =>
          match up.modelsResp model_year mk issue_type with
          | some results => models ++ results.map (fun m =>
              { modelYear := m.modelYear, make := m.make, model := m.model })
          | none => models) acc
        = acc ++ makes_list.flatMap (modelsContribution up model_year issue_type)
  | [], acc => by simp
  | mk :: rest, acc => by
      rw [List.foldl_cons, List.flatMap_cons,
        foldl_models_eq up model_year issue_type rest]
      cases hres : up.modelsResp model_year mk issue_type <;>
        simp [modelsContribution, hres]

theorem fetch_models_eq_flatMap (up : Upstream) (model_year : Int)
    (makes_list : List String) (issue_type : Char) :
    fetch_models up model_year makes_list issue_type
      = makes_list.flatMap (modelsContribution up model_year issue_type) := by
  unfold fetch_models
  rw [foldl_models_eq]
  rfl

theorem foldl_complaints_eq (up : Upstream) :
    ∀ (models_df : List ModelRecord) (acc : List ComplaintRecord),
      models_df.foldl (fun complaints row =>
          match up.complaintsResp row.make row.model row.modelYear with
          | some results => complaints ++ results.map (mkComplaintRecord row)
          | none => complaints) acc
        = acc ++ models_df.flatMap (complaintsContribution up)
  | [], acc => by simp
  | row :: rest, acc => by
      rw [List.foldl_cons, List.flatMap_cons, foldl_complaints_eq up rest]
      cases hres : up.complaintsResp row.make row.model row.modelYear <;>
        simp [complaintsContribution, hres]

theorem fetch_complaints_eq_flatMap (up : Upstream) (models_df : List ModelRecord) :
    fetch_complaints up models_df = models_df.flatMap (complaintsContribution up) := by
  unfold fetch_complaints
  rw [foldl_complaints_eq]
  rfl

theorem foldl_recalls_eq (up : Upstream) :
    ∀ (models_df : List ModelRecord) (acc : List RecallRecord),
      models_df.foldl (fun recalls row =>
          match up.recallsResp row.make row.model row.modelYear with
          | some results => recalls ++ results.map (mkRecallRecord row)
          | none => recalls) acc
        = acc ++ models_df.flatMap (recallsContribution up)
  | [], acc => by simp
  | row :: rest, acc => by
      rw [List.foldl_cons, List.flatMap_cons, foldl_recalls_eq up rest]
      cases hres : up.recallsResp row.make row.model row.modelYear <;>
        simp [recallsContribution, hres]

theorem fetch_recalls_eq_flatMap (up : Upstream) (models_df : List ModelRecord) :
    fetch_recalls up models_df = models_df.flatMap (recallsContribution up) := by
  unfold fetch_recalls
  rw [foldl_recalls_eq]
  rfl

theorem mem_fetch_complaints (up : Upstream) (models_df : List ModelRecord)
    (cr : ComplaintRecord) :
    cr ∈ fetch_complaints up models_df ↔
      ∃ row ∈ models_df, cr ∈ complaintsContribution up row := by
  rw [fetch_complaints_eq_flatMap]
  exact List.mem_flatMap

theorem mem_fetch_recalls (up : Upstream) (models_df : List ModelRecord)
    (rr : RecallRecord) :
    rr ∈ fetch_recalls up models_df ↔
      ∃ row ∈ models_df, rr ∈ recallsContribution up row := by
  rw [fetch_recalls_eq_flatMap]
  exact List.mem_flatMap

theorem mem_complaintsContribution (up : Upstream) (row : ModelRecord)
    (cr : ComplaintRecord) :
    cr ∈ complaintsContribution up row ↔
      ∃ c ∈ (up.complaintsResp row.make row.model row.modelYear).getD [],
        cr = mkComplaintRecord row c := by
  unfold complaintsContribution
  cases h : up.complaintsResp row.make row.model row.modelYear <;>
    simp [List.mem_map, eq_comm]

theorem mem_recallsContribution (up : Upstream) (row : ModelRecord)
    (rr : RecallRecord) :
    rr ∈ recallsContribution up row ↔
      ∃ r ∈ (up.recallsResp row.make row.model row.modelYear).getD [],
        rr = mkRecallRecord row r := by
  unfold recallsContribution
  cases h : up.recallsResp row.make row.model row.modelYear <;>
    simp [List.mem_map, eq_comm]

theorem flatMap_filter_ne {α β : Type} [BEq α] [LawfulBEq α]
    (f : α → List β) (x : α) (hx : f x = []) :
    ∀ l : List α, (l.filter (fun a => a != x)).flatMap f = l.flatMap f
  | [] => rfl
  | a :: l => by
      rw [List.filter_cons]
      by_cases h : a = x
      · subst h
        simp [hx, flatMap_filter_ne f a hx l]
      · have hb : (a != x) = true := by simp [h]
        simp [hb, flatMap_filter_ne f x hx l]


theorem lookup_map_pair (f : String × String → Nat) :
    ∀ (ks : List (String × String)) (p : String × String),
      (ks.map (fun k => (k, f k))).lookup p = if p ∈ ks then some (f p) else none
  | [], _ => rfl
  | k :: ks, p => by
      rw [List.map_cons, List.lookup_cons]
      cases hb : p == k
      · have hne : p ≠ k := by simpa using hb
        simp [hne, lookup_map_pair f ks p, List.mem_cons]
      · have heq : p = k := by simpa using hb
        subst heq
        simp

theorem groupTable_lookup (rows : List (String × String)) (p : String × String) :
    (groupTable rows).lookup p
      = if p ∈ rows then some (rows.count p) else none := by
  unfold groupTable
  rw [lookup_map_pair]
  by_cases h : p ∈ rows <;> simp [List.mem_dedup, h]

theorem countP_eq_and (c : String × String → Bool) (p : String × String) :
    ∀ rows : List (String × String),
      rows.countP (fun k => (k == p) && c k)
        = if c p = true then rows.count p else 0
  | [] => by simp
  | k :: rows => by
      rw [List.countP_cons, countP_eq_and c p rows]
      by_cases hk : k = p
      · subst hk
        cases hc : c k <;> simp [List.count_cons, hc]
      · have hb : (k == p) = false := by simpa using hk
        cases hc : c p <;> simp [List.count_cons, hk, hb, hc]

theorem count_nodup_mem {α : Type} [BEq α] [LawfulBEq α] :
    ∀ {l : List α} {a : α}, l.Nodup → a ∈ l → l.count a = 1
  | [], _, _, ha => absurd ha (List.not_mem_nil _)
  | x :: l, a, hnd, ha => by
      rw [List.count_cons]
      rcases List.mem_cons.1 ha with rfl | ha2
      · have h0 : l.count a = 0 :=
          List.count_eq_zero.2 (List.nodup_cons.1 hnd).1
        simp [h0]
      · have hax : (x == a) = false := by
          have hne : x ≠ a := by
            rintro rfl
            exact (List.nodup_cons.1 hnd).1 ha2
          simpa using hne
        rw [count_nodup_mem (List.nodup_cons.1 hnd).2 ha2, hax]
        simp

theorem count_dedup_pair (l : List (String × String)) (p : String × String) :
    l.dedup.count p = if p ∈ l then 1 else 0 := by
  by_cases h : p ∈ l
  · rw [if_pos h]
    exact count_nodup_mem (List.nodup_dedup l) (List.mem_dedup.2 h)
  · rw [if_neg h]
    exact List.count_eq_zero.2 (fun hm => h (List.mem_dedup.1 hm))

theorem count_filter_cond (c : String × String → Bool) (p : String × String)
    (l : List (String × String)) :
    (l.filter c).count p = if c p = true then l.count p else 0 := by
  show List.countP (fun x => x == p) (l.filter c) = _
  rw [List.countP_filter]
  exact countP_eq_and c p l

theorem filter_length_keyed (xs : List (String × String))
    (cnt g : String × String → Nat) (p : String × String) :
    ((xs.map (fun k =>
      ({ make := k.1
         model := k.2
         complaints_count := cnt k
         recalls_count := g k } : FeatureRow))).filter
        (fun fr => fr.make == p.1 && fr.model == p.2)).length
      = xs.count p := by
  rw [← List.countP_eq_length_filter, List.countP_map]
  rfl

theorem merge_groupTables_filter_length (pc pr : List (String × String))
    (p : String × String) :
    ((merge_outer_fill0 (groupTable pc) (groupTable pr)).filter
        (fun fr => fr.make == p.1 && fr.model == p.2)).length
      = if p ∈ pc ∨ p ∈ pr then 1 else 0 := by
  rw [merge_outer_fill0, List.filter_append, List.length_append]
  have hleft :
      (((groupTable pc).map (fun kc =>
        ({ make := kc.1.1
           model := kc.1.2
           complaints_count := kc.2
           recalls_count := (((groupTable pr).lookup kc.1).getD 0) } : FeatureRow))).filter
        (fun fr => fr.make == p.1 && fr.model == p.2)).length
      = if p ∈ pc then 1 else 0 := by
    unfold groupTable
    rw [List.map_map]
    exact (filter_length_keyed pc.dedup (fun k => pc.count k)
      (fun k => ((groupTable pr).lookup k).getD 0) p).trans (count_dedup_pair pc p)
  have hright :
      ((((groupTable pr).filter
          (fun kc => ((groupTable pc).lookup kc.1).isNone)).map (fun kc =>
        ({ make := kc.1.1
           model := kc.1.2
           complaints_count := 0
           recalls_count := kc.2 } : FeatureRow))).filter
        (fun fr => fr.make == p.1 && fr.model == p.2)).length
      = if p ∈ pr ∧ p ∉ pc then 1 else 0 := by
    have hcount :
        (pr.dedup.filter
          (fun k => ((groupTable pc).lookup k).isNone)).count p
        = if p ∈ pr ∧ p ∉ pc then 1 else 0 := by
      rw [count_filter_cond, groupTable_lookup, count_dedup_pair]
      by_cases hc : p ∈ pc <;> by_cases hr2 : p ∈ pr <;> simp [hc, hr2]
    have hswap :
        (groupTable pr).filter (fun kc => ((groupTable pc).lookup kc.1).isNone)
          = (pr.dedup.filter (fun k => ((groupTable pc).lookup k).isNone)).map
              (fun k => (k, pr.count k)) := by
      unfold groupTable
      rw [List.filter_map]
      rfl
    rw [hswap, List.map_map]
    exact (filter_length_keyed _ (fun _ => 0) (fun k => pr.count k) p).trans hcount
  rw [hleft, hright]
  by_cases hc : p ∈ pc <;> by_cases hr2 : p ∈ pr <;> simp [hc, hr2]


theorem merge_groupTables_counts (pc pr : List (String × String))
    (p : String × String) (fr : FeatureRow)
    (hfr : fr ∈ merge_outer_fill0 (groupTable pc) (groupTable pr))
    (hm : fr.make = p.1) (hmo : fr.model = p.2) :
    fr.complaints_count = pc.count p ∧ fr.recalls_count = pr.count p := by
  rw [merge_outer_fill0, List.mem_append] at hfr
  rcases hfr with hfr | hfr
  · rcases List.mem_map.1 hfr with ⟨kc, hkc, rfl⟩
    rw [groupTable] at hkc
    rcases List.mem_map.1 hkc with ⟨k, hk, rfl⟩
    have hkp : k = p := Prod.ext hm hmo
    subst hkp
    refine ⟨rfl, ?_⟩
    show ((groupTable pr).lookup k).getD 0 = pr.count k
    rw [groupTable_lookup]
    by_cases hpr : k ∈ pr
    · simp [hpr]
    · simp [hpr, List.count_eq_zero.2 hpr]
  · rcases List.mem_map.1 hfr with ⟨kc, hkc, rfl⟩
    rcases List.mem_filter.1 hkc with ⟨hkc2, hnone⟩
    rw [groupTable] at hkc2
    rcases List.mem_map.1 hkc2 with ⟨k, hk, rfl⟩
    have hkp : k = p := Prod.ext hm hmo
    subst hkp
    refine ⟨?_, rfl⟩
    rw [groupTable_lookup] at hnone
    by_cases hpc : k ∈ pc
    · rw [if_pos hpc] at hnone
      exact absurd hnone (by simp)
    · show 0 = pc.count k
      rw [List.count_eq_zero.2 hpc]

theorem aggregate_ok_of_ne (cs : List ComplaintRecord) (rs : List RecallRecord)
    (hc : cs ≠ []) (hr : rs ≠ []) :
    aggregate cs rs = Except.ok
      (merge_outer_fill0 (groupTable (complaintPairs cs))
        (groupTable (recallPairs rs))) := by
  have h1 : (complaintPairs cs).isEmpty = false := by
    cases cs with
    | nil => exact absurd rfl hc
    | cons a l => rfl
  have h2 : (recallPairs rs).isEmpty = false := by
    cases rs with
    | nil => exact absurd rfl hr
    | cons a l => rfl
  unfold aggregate df_groupby_size
  rw [h1, h2]
  rfl


/-- C1 (corrected, counterexample part): the unrestricted claim fails.
With complaints `[acmeComplaintX1]` and recalls `[]` the pair (Acme, X)
appears in the complaints input, yet the aggregate step produces no
FeatureRow at all: it raises KeyError, because the empty recalls frame
has no make or model column. -/
theorem aggregate_errors_with_pair_present :
    aggregate [acmeComplaintX1] [] = Except.error "KeyError: make" ∧
    ("Acme", "X") ∈ complaintPairs [acmeComplaintX1] ∧
    ¬ ∃ rows, aggregate [acmeComplaintX1] [] = Except.ok rows := by
  refine ⟨rfl, by decide, ?_⟩
  rintro ⟨rows, hrows⟩
  rw [show aggregate [acmeComplaintX1] ([] : List RecallRecord)
      = Except.error "KeyError: make" from rfl] at hrows
  exact Except.noConfusion hrows

/-- C1 (amended): for every NON-EMPTY complaints sequence and NON-EMPTY
recalls sequence, the aggregate step succeeds and produces exactly one
FeatureRow for every (make, model) pair appearing in either input, whose
complaints count and recalls count equal the number of records with that
pair on the respective side (counts are naturals, hence non-negative),
and produces no row for a pair appearing in neither input (the filter
for such a pair has length 0). -/
theorem aggregate_outer_join_complete (cs : List ComplaintRecord)
    (rs : List RecallRecord) (hc : cs ≠ []) (hr : rs ≠ []) :
    ∃ rows, aggregate cs rs = Except.ok rows ∧
      ∀ p : String × String,
        ((rows.filter (fun fr => fr.make == p.1 && fr.model == p.2)).length
          = if p ∈ complaintPairs cs ∨ p ∈ recallPairs rs then 1 else 0) ∧
        ∀ fr ∈ rows, fr.make = p.1 → fr.model = p.2 →
          fr.complaints_count = (complaintPairs cs).count p ∧
          fr.recalls_count = (recallPairs rs).count p := by
  refine ⟨merge_outer_fill0 (groupTable (complaintPairs cs))
    (groupTable (recallPairs rs)), aggregate_ok_of_ne cs rs hc hr, ?_⟩
  intro p
  exact ⟨merge_groupTables_filter_length (complaintPairs cs) (recallPairs rs) p,
    fun fr hfr hm hmo =>
      merge_groupTables_counts (complaintPairs cs) (recallPairs rs) p fr hfr hm hmo⟩

/-- C1 witness: the amended theorem applied to the concrete one-row
inputs, with both non-emptiness hypotheses discharged. -/
theorem aggregate_outer_join_complete_witness :
    ([acmeComplaintX1] : List ComplaintRecord) ≠ [] ∧
    ([acmeRecallY] : List RecallRecord) ≠ [] ∧
    (∃ rows, aggregate [acmeComplaintX1] [acmeRecallY] = Except.ok rows ∧
      ∀ p : String × String,
        ((rows.filter (fun fr => fr.make == p.1 && fr.model == p.2)).length
          = if p ∈ complaintPairs [acmeComplaintX1] ∨
              p ∈ recallPairs [acmeRecallY] then 1 else 0) ∧
        ∀ fr ∈ rows, fr.make = p.1 → fr.model = p.2 →
          fr.complaints_count = (complaintPairs [acmeComplaintX1]).count p ∧
          fr.recalls_count = (recallPairs [acmeRecallY]).count p) :=
  ⟨by decide, by decide,
   aggregate_outer_join_complete [acmeComplaintX1] [acmeRecallY]
     (by decide) (by decide)⟩

/-- C2 (code bug): on the two §8 example inputs of the spec, where one
side is the empty sequence, the aggregate step does not succeed: the
empty side yields `pd.DataFrame([])`, which has no make or model column,
so the groupby raises KeyError instead of producing the claimed
single-row table. -/
theorem aggregate_spec_examples_raise :
    aggregate [acmeComplaintX1, acmeComplaintX2] [] = Except.error "KeyError: make" ∧
    aggregate [] [acmeRecallY] = Except.error "KeyError: make" := ⟨rfl, rfl⟩

/-- C3 (corrected, counterexample part): when the upstream results list
names the make Acme twice, fetch_makes returns the two-element list
with a duplicate, not a duplicate-free set. -/
theorem fetch_makes_returns_duplicates :
    fetch_makes upDupMakes 2020 'c' = Except.ok ["Acme", "Acme"] ∧
    ¬ (["Acme", "Acme"] : List String).Nodup := ⟨rfl, by decide⟩

/-- C3 (amended): for every model year, issue type and upstream makes
response carrying a results list, fetch_makes succeeds and returns the
list of make strings of the results list in response order, one output
entry per result entry (multiplicity preserved, duplicates included). -/
theorem fetch_makes_list_of_results (up : Upstream) (model_year : Int)
    (issue_type : Char) (results : List SrcMake)
    (h : up.makesResp model_year issue_type = some results) :
    fetch_makes up model_year issue_type = Except.ok (results.map SrcMake.make) ∧
    (results.map SrcMake.make).length = results.length := by
  constructor
  · unfold fetch_makes
    rw [h]
  · exact List.length_map results SrcMake.make

/-- C3 witness: the amended theorem applied to the duplicate-make
upstream, with the response hypothesis discharged. -/
theorem fetch_makes_list_of_results_witness :
    upDupMakes.makesResp 2020 'c' = some [srcMakeAcme, srcMakeAcme] ∧
    (fetch_makes upDupMakes 2020 'c'
        = Except.ok ([srcMakeAcme, srcMakeAcme].map SrcMake.make) ∧
      ([srcMakeAcme, srcMakeAcme].map SrcMake.make).length
        = ([srcMakeAcme, srcMakeAcme] : List SrcMake).length) :=
  ⟨rfl, fetch_makes_list_of_results upDupMakes 2020 'c' [srcMakeAcme, srcMakeAcme] rfl⟩


/-- C4: when the taxonomy (makes) response for the run's model year
lacks the results key, fetch_makes raises
ValueError("Failed to fetch makes data."), the uncaught exception makes
the whole run terminate failed, and since the action list exists only on
a successful return, neither put_object nor create_training_job is
attempted. -/
theorem taxonomy_failure_aborts_run (env : Env) (event : Event)
    (h : env.up.makesResp (event.model_year.getD 2020) 'c' = none) :
    lambda_handler env event = Except.error "Failed to fetch makes data." ∧
    ∀ out : List Action × RunResult, lambda_handler env event ≠ Except.ok out := by
  have hmain : lambda_handler env event
      = Except.error "Failed to fetch makes data." := by
    simp only [lambda_handler, fetch_makes, h, bindE_error]
  exact ⟨hmain, fun out hout => Except.noConfusion (hmain.symm.trans hout)⟩

/-- C4 witness: the theorem applied to the concrete upstream whose makes
response lacks results, with the hypothesis discharged. -/
theorem taxonomy_failure_aborts_run_witness :
    envNoMakes.up.makesResp (eventNone.model_year.getD 2020) 'c' = none ∧
    (lambda_handler envNoMakes eventNone
        = Except.error "Failed to fetch makes data." ∧
      ∀ out : List Action × RunResult,
        lambda_handler envNoMakes eventNone ≠ Except.ok out) :=
  ⟨rfl, taxonomy_failure_aborts_run envNoMakes eventNone rfl⟩

/-- C5: fetch_models is total (the embedding returns a plain list, never
an error), and when the response for make mk lacks the results key the
output is exactly the output on the make list with mk removed: the
failing make contributes zero ModelRecords and every other make's
contribution is unchanged. -/
theorem fetch_models_partial_failure_isolation (up : Upstream)
    (model_year : Int) (makes_list : List String) (issue_type : Char)
    (mk : String) (h : up.modelsResp model_year mk issue_type = none) :
    fetch_models up model_year makes_list issue_type
      = fetch_models up model_year (makes_list.filter (fun m => m != mk))
          issue_type := by
  rw [fetch_models_eq_flatMap, fetch_models_eq_flatMap]
  have hmk : modelsContribution up model_year issue_type mk = [] := by
    unfold modelsContribution
    rw [h]
  exact (flatMap_filter_ne (modelsContribution up model_year issue_type)
    mk hmk makes_list).symm

/-- C5 witness: the theorem applied to the upstream whose response for
make Bork lacks results, with the hypothesis discharged. -/
theorem fetch_models_partial_failure_isolation_witness :
    upPartial.modelsResp 2020 "Bork" 'c' = none ∧
    fetch_models upPartial 2020 ["Acme", "Bork"] 'c'
      = fetch_models upPartial 2020
          (["Acme", "Bork"].filter (fun m => m != "Bork")) 'c' :=
  ⟨rfl, fetch_models_partial_failure_isolation upPartial 2020
    ["Acme", "Bork"] 'c' "Bork" rfl⟩

/-- C6: the ModelRecord sequence returned by fetch_models is the
concatenation, in input make order, of the per-make contributions, and
each contribution lists that make's upstream results in response order
(modelsContribution maps the results list in order). -/
theorem fetch_models_respects_input_order (up : Upstream) (model_year : Int)
    (makes_list : List String) (issue_type : Char) :
    fetch_models up model_year makes_list issue_type
      = makes_list.flatMap (modelsContribution up model_year issue_type) :=
  fetch_models_eq_flatMap up model_year makes_list issue_type


/-- C7: the per-record mappings of fetch_complaints and fetch_recalls
copy each optional field verbatim from the upstream object, so an absent
field (none) stays an explicit none and is never replaced by a default,
and every record either fetcher produces arises through that mapping
from some upstream result object. -/
theorem optional_fields_never_defaulted :
    (∀ (row : ModelRecord) (c : SrcComplaint),
      (mkComplaintRecord row c).summary = c.summary) ∧
    (∀ (row : ModelRecord) (r : SrcRecall),
      (mkRecallRecord row r).consequence = r.Consequence ∧
      (mkRecallRecord row r).remedy = r.Remedy ∧
      (mkRecallRecord row r).notes = r.Notes ∧
      (mkRecallRecord row r).reportDate = r.ReportReceivedDate ∧
      (mkRecallRecord row r).affectedVehicles = r.AffectedVehicles) ∧
    (∀ (up : Upstream) (models_df : List ModelRecord) (cr : ComplaintRecord),
      cr ∈ fetch_complaints up models_df →
      ∃ row ∈ models_df,
        ∃ c ∈ (up.complaintsResp row.make row.model row.modelYear).getD [],
          cr = mkComplaintRecord row c) ∧
    (∀ (up : Upstream) (models_df : List ModelRecord) (rr : RecallRecord),
      rr ∈ fetch_recalls up models_df →
      ∃ row ∈ models_df,
        ∃ r ∈ (up.recallsResp row.make row.model row.modelYear).getD [],
          rr = mkRecallRecord row r) := by
  refine ⟨fun _ _ => rfl, fun _ _ => ⟨rfl, rfl, rfl, rfl, rfl⟩, ?_, ?_⟩
  · intro up models_df cr hcr
    rcases (mem_fetch_complaints up models_df cr).1 hcr with ⟨row, hrow, hmem⟩
    exact ⟨row, hrow, (mem_complaintsContribution up row cr).1 hmem⟩
  · intro up models_df rr hr2
    rcases (mem_fetch_recalls up models_df rr).1 hr2 with ⟨row, hrow, hmem⟩
    exact ⟨row, hrow, (mem_recallsContribution up row rr).1 hmem⟩

/-- C7 witness: the four parts of the theorem applied at concrete
inputs, with the two membership hypotheses discharged on the happy-path
upstream. -/
theorem optional_fields_never_defaulted_witness :
    (mkComplaintRecord rowAcmeX srcComplaintOne).summary
        = srcComplaintOne.summary ∧
    ((mkRecallRecord rowAcmeX srcRecallOne).consequence
        = srcRecallOne.Consequence ∧
      (mkRecallRecord rowAcmeX srcRecallOne).remedy = srcRecallOne.Remedy ∧
      (mkRecallRecord rowAcmeX srcRecallOne).notes = srcRecallOne.Notes ∧
      (mkRecallRecord rowAcmeX srcRecallOne).reportDate
        = srcRecallOne.ReportReceivedDate ∧
      (mkRecallRecord rowAcmeX srcRecallOne).affectedVehicles
        = srcRecallOne.AffectedVehicles) ∧
    (∃ row ∈ [rowAcmeX],
      ∃ c ∈ (upHappy.complaintsResp row.make row.model row.modelYear).getD [],
        acmeComplaintX1 = mkComplaintRecord row c) ∧
    (∃ row ∈ [rowAcmeX],
      ∃ r ∈ (upHappy.recallsResp row.make row.model row.modelYear).getD [],
        acmeRecallX = mkRecallRecord row r) :=
  ⟨optional_fields_never_defaulted.1 rowAcmeX srcComplaintOne,
   optional_fields_never_defaulted.2.1 rowAcmeX srcRecallOne,
   optional_fields_never_defaulted.2.2.1 upHappy [rowAcmeX] acmeComplaintX1
     (by decide),
   optional_fields_never_defaulted.2.2.2 upHappy [rowAcmeX] acmeRecallX
     (by decide)⟩

/-- C8: the entry point behaves the same whether an option is absent or
explicitly set to its documented default (bucket "nhtsa-analytics",
model year 2020, runtime 600, instance "ml.m5.large"), and every
successful return has statusCode 200 and a body containing the submitted
training-job reference. -/
theorem lambda_handler_defaults_and_success (env : Env) (event : Event) :
    (lambda_handler env { event with bucket_name := none }
      = lambda_handler env { event with bucket_name := some "nhtsa-analytics" }) ∧
    (lambda_handler env { event with model_year := none }
      = lambda_handler env { event with model_year := some 2020 }) ∧
    (lambda_handler env { event with train_runtime := none }
      = lambda_handler env { event with train_runtime := some 600 }) ∧
    (lambda_handler env { event with train_instance := none }
      = lambda_handler env { event with train_instance := some "ml.m5.large" }) ∧
    ∀ (acts : List Action) (res : RunResult),
      lambda_handler env event = Except.ok (acts, res) →
      res.statusCode = 200 ∧
      ∃ pre post, res.body = pre ++ env.trainingJobArn ++ post := by
  refine ⟨rfl, rfl, rfl, rfl, ?_⟩
  intro acts res h
  simp only [lambda_handler] at h
  rcases bind_eq_ok h with ⟨makes, hfm, h2⟩
  rcases bind_eq_ok h2 with ⟨merged, hag, h3⟩
  have h4 := Except.ok.inj h3
  injection h4 with h5 h6
  subst h6
  exact ⟨rfl, "\"Triggered SageMaker job: ", "\"", rfl⟩

/-- C8 witness: the success-shape part of the theorem applied to the
happy-path run, whose handler output is computed concretely. -/
theorem lambda_handler_defaults_and_success_witness :
    lambda_handler envHappy eventNone = Except.ok (actsHappy, resHappy) ∧
    (resHappy.statusCode = 200 ∧
      ∃ pre post, resHappy.body = pre ++ envHappy.trainingJobArn ++ post) :=
  ⟨rfl, (lambda_handler_defaults_and_success envHappy eventNone).2.2.2.2
    actsHappy resHappy rfl⟩

/-- C9: every record fetch_complaints or fetch_recalls produces carries
the make, model and modelYear of the models-frame row whose fetch
produced it (the dict copies the loop row's fields, not the response
body), so every (make, model) pair in the fetcher outputs occurs among
the input ModelRecords. -/
theorem fetched_records_carry_input_triple (up : Upstream)
    (models_df : List ModelRecord) :
    (∀ cr ∈ fetch_complaints up models_df, ∃ row ∈ models_df,
      cr.make = row.make ∧ cr.model = row.model ∧
        cr.modelYear = row.modelYear) ∧
    (∀ rr ∈ fetch_recalls up models_df, ∃ row ∈ models_df,
      rr.make = row.make ∧ rr.model = row.model ∧
        rr.modelYear = row.modelYear) ∧
    (∀ p : String × String,
      (p ∈ complaintPairs (fetch_complaints up models_df) ∨
        p ∈ recallPairs (fetch_recalls up models_df)) →
      p ∈ models_df.map (fun row => (row.make, row.model))) := by
  have hcompl : ∀ cr ∈ fetch_complaints up models_df, ∃ row ∈ models_df,
      cr.make = row.make ∧ cr.model = row.model ∧
        cr.modelYear = row.modelYear := by
    intro cr hcr
    rcases (mem_fetch_complaints up models_df cr).1 hcr with ⟨row, hrow, hmem⟩
    rcases (mem_complaintsContribution up row cr).1 hmem with ⟨c, hcmem, rfl⟩
    exact ⟨row, hrow, rfl, rfl, rfl⟩
  have hrec : ∀ rr ∈ fetch_recalls up models_df, ∃ row ∈ models_df,
      rr.make = row.make ∧ rr.model = row.model ∧
        rr.modelYear = row.modelYear := by
    intro rr hr2
    rcases (mem_fetch_recalls up models_df rr).1 hr2 with ⟨row, hrow, hmem⟩
    rcases (mem_recallsContribution up row rr).1 hmem with ⟨r, hrmem, rfl⟩
    exact ⟨row, hrow, rfl, rfl, rfl⟩
  refine ⟨hcompl, hrec, ?_⟩
  intro p hp
  rcases hp with hp | hp
  · rcases List.mem_map.1 hp with ⟨cr, hcr, rfl⟩
    rcases hcompl cr hcr with ⟨row, hrow, h1, h2, _⟩
    exact List.mem_map.2 ⟨row, hrow, by rw [h1, h2]⟩
  · rcases List.mem_map.1 hp with ⟨rr, hr2, rfl⟩
    rcases hrec rr hr2 with ⟨row, hrow, h1, h2, _⟩
    exact List.mem_map.2 ⟨row, hrow, by rw [h1, h2]⟩

/-- C9 witness: the three parts of the theorem applied to the happy-path
upstream and the one-row models frame, with memberships discharged. -/
theorem fetched_records_carry_input_triple_witness :
    (∃ row ∈ [rowAcmeX], acmeComplaintX1.make = row.make ∧
      acmeComplaintX1.model = row.model ∧
        acmeComplaintX1.modelYear = row.modelYear) ∧
    (∃ row ∈ [rowAcmeX], acmeRecallX.make = row.make ∧
      acmeRecallX.model = row.model ∧
        acmeRecallX.modelYear = row.modelYear) ∧
    ("Acme", "X") ∈ [rowAcmeX].map (fun row => (row.make, row.model)) :=
  ⟨(fetched_records_carry_input_triple upHappy [rowAcmeX]).1
      acmeComplaintX1 (by decide),
   (fetched_records_carry_input_triple upHappy [rowAcmeX]).2.1
      acmeRecallX (by decide),
   (fetched_records_carry_input_triple upHappy [rowAcmeX]).2.2
      ("Acme", "X") (Or.inl (by decide))⟩

/-- C10: the driver queries the makes and models endpoints with issue
type c only, so two upstreams that agree on the issue-type-c data of
those endpoints and on the complaints and recalls endpoints give the
run identical outcomes, in particular an identical feature table in the
storage write, whatever data is filed under other issue types. -/
theorem driver_queries_complaint_issue_type_only (u1 u2 : Upstream)
    (now arn : String) (event : Event)
    (hmakes : ∀ y, u1.makesResp y 'c' = u2.makesResp y 'c')
    (hmodels : ∀ y mk, u1.modelsResp y mk 'c' = u2.modelsResp y mk 'c')
    (hcompl : u1.complaintsResp = u2.complaintsResp)
    (hrec : u1.recallsResp = u2.recallsResp) :
    lambda_handler { up := u1, now := now, trainingJobArn := arn } event
      = lambda_handler { up := u2, now := now, trainingJobArn := arn } event := by
  unfold lambda_handler fetch_makes fetch_models fetch_complaints fetch_recalls
  simp only [hmakes, hmodels, hcompl, hrec]

/-- C10 witness: the theorem applied to the concrete pair of upstreams
that differ only in makes and models data filed under issue types other
than c, with all four agreement hypotheses discharged. -/
theorem driver_queries_complaint_issue_type_only_witness :
    (∀ y, upIssueA.makesResp y 'c' = upIssueB.makesResp y 'c') ∧
    (∀ y mk, upIssueA.modelsResp y mk 'c' = upIssueB.modelsResp y mk 'c') ∧
    upIssueA.complaintsResp = upIssueB.complaintsResp ∧
    upIssueA.recallsResp = upIssueB.recallsResp ∧
    lambda_handler { up := upIssueA, now := "T", trainingJobArn := "ARN" } eventNone
      = lambda_handler { up := upIssueB, now := "T", trainingJobArn := "ARN" }
          eventNone :=
  ⟨fun _ => rfl, fun _ _ => rfl, rfl, rfl,
   driver_queries_complaint_issue_type_only upIssueA upIssueB "T" "ARN" eventNone
     (fun _ => rfl) (fun _ _ => rfl) rfl rfl⟩

end NhtsaLambdaTrain
